import Mathlib

/-!
Verification development for the `siseroja` data-model layer
(`src/app/models.py`).  Entities, enumerations and input schemas are
embedded as Lean structures; declarative field constraints become
executable validity predicates; the workflow / storage operations that
the spec describes but that are not part of the given source are
modelled from the spec (each such definition says so in its doc
comment).
-/

namespace Siseroja

/-- Enumeration `UserRole` (src/app/models.py lines 8-11). -/
inductive UserRole where
  | owner
  | admin
  | staff
deriving DecidableEq, Repr

/-- Enumeration `PermitStatus` (src/app/models.py lines 14-18). -/
inductive PermitStatus where
  | pending
  | approved
  | rejected
  | cancelled
deriving DecidableEq, Repr

/-- Enumeration `PermitType` (src/app/models.py lines 21-24). -/
inductive PermitType where
  | sick
  | family_matter
  | other
deriving DecidableEq, Repr

/-- Enumeration `GradeLevel` (src/app/models.py lines 27-30). -/
inductive GradeLevel where
  | grade_7
  | grade_8
  | grade_9
deriving DecidableEq, Repr

/-- Enumeration `Gender` (src/app/models.py lines 33-35). -/
inductive Gender where
  | male
  | female
deriving DecidableEq, Repr

/-- The wire-string code of a permit type (the enum values in the source). -/
def PermitType.code : PermitType → String
  | .sick => "sick"
  | .family_matter => "family_matter"
  | .other => "other"

/-- A calendar date (Python `datetime.date`), compared lexicographically. -/
structure Date where
  year : Nat
  month : Nat
  day : Nat
deriving DecidableEq, Repr

/-- Lexicographic order on dates: `a` is on or before `b`. -/
def Date.le (a b : Date) : Bool :=
  decide (a.year < b.year ∨
    (a.year = b.year ∧ (a.month < b.month ∨
      (a.month = b.month ∧ a.day ≤ b.day))))

/-- ISO-like rendering of a date, used by the public projection. -/
def Date.isoString (d : Date) : String :=
  toString d.year ++ "-" ++ toString d.month ++ "-" ++ toString d.day

/-- The error kinds of the spec's error-handling design (spec section 7):
validation, uniqueness conflict, referential, state conflict, not-found. -/
inductive ModelError where
  | validation (field : String)
  | uniqueness (field : String)
  | referential (field : String)
  | stateConflict
  | notFound
deriving DecidableEq, Repr

/-- An optional string is within a length bound when absent or short enough. -/
def optLenLe : Option String → Nat → Bool
  | none, _ => true
  | some s, n => decide (s.length ≤ n)

theorem optLenLe_iff (o : Option String) (n : Nat) :
    optLenLe o n = true ↔ ∀ s, o = some s → s.length ≤ n := by
  cases o <;> simp [optLenLe]

/-- Persistent entity `StudentPermit` (src/app/models.py lines 137-153).
Timestamps are abstracted as naturals. -/
structure StudentPermit where
  id : Option Nat
  student_id : Nat
  permit_type : PermitType
  reason : String
  start_date : Date
  end_date : Date
  status : PermitStatus
  notes : Option String
  approval_notes : Option String
  created_by : Nat
  updated_by : Option Nat
  created_at : Nat
  updated_at : Nat
  approved_at : Option Nat
deriving DecidableEq, Repr

/-- The declared string-length constraints of `StudentPermit`:
`reason` max 500, `notes` max 1000, `approval_notes` max 500. -/
def StudentPermit.valid (p : StudentPermit) : Bool :=
  decide (p.reason.length ≤ 500) && optLenLe p.notes 1000 &&
    optLenLe p.approval_notes 500

/-- Input schema `PermitCreate` (src/app/models.py lines 242-249). -/
structure PermitCreate where
  student_id : Nat
  permit_type : PermitType
  reason : String
  start_date : Date
  end_date : Date
  notes : Option String
deriving DecidableEq, Repr

/-- Modelled from the spec: the permit-creation validation operation is not
in `src` (only the `PermitCreate` schema is).  Spec sections 4.2 and 8:
field constraints are checked and the date range must satisfy
`start_date ≤ end_date`; a violation is a per-field validation error. -/
def validatePermitCreate (p : PermitCreate) : Except ModelError PermitCreate :=
  if 500 < p.reason.length then .error (.validation "reason")
  else if !optLenLe p.notes 1000 then .error (.validation "notes")
  else if !Date.le p.start_date p.end_date then .error (.validation "start_date")
  else .ok p

/-- Modelled from the spec: the workflow-transition operation on permits is
not in `src` (only the `StudentPermit` and `PermitUpdate` schemas are).
Spec sections 4.2 and 8: transitions are defined only out of `pending`;
`pending → approved` records the actor, `updated_at` and `approved_at`
atomically; `pending → rejected` and `pending → cancelled` record the actor;
any attempt from a terminal state is a state-conflict error. -/
def applyTransition (p : StudentPermit) (newStatus : PermitStatus)
    (actor : Nat) (now : Nat) (anotes : Option String) :
    Except ModelError StudentPermit :=
  match p.status with
  | .pending =>
    match newStatus with
    | .approved => .ok { p with
        status := .approved
        updated_by := some actor
        updated_at := now
        approved_at := some now
        approval_notes := anotes }
    | .rejected => .ok { p with
        status := .rejected
        updated_by := some actor
        updated_at := now
        approval_notes := anotes }
    | .cancelled => .ok { p with
        status := .cancelled
        updated_by := some actor
        updated_at := now }
    | .pending => .error .stateConflict
  | _ => .error .stateConflict

/-- A transition attempt against a stored record: on failure the stored
record is kept unchanged and the error is reported. -/
def tryTransition (p : StudentPermit) (newStatus : PermitStatus)
    (actor : Nat) (now : Nat) (anotes : Option String) :
    StudentPermit × Option ModelError :=
  match applyTransition p newStatus actor now anotes with
  | .ok q => (q, none)
  | .error e => (p, some e)

/-- Persistent entity `User` (src/app/models.py lines 39-49): login identity
with a hashed credential; the plaintext password is not a stored field. -/
structure User where
  id : Option Nat
  email : String
  password_hash : String
  name : String
  role : UserRole
  is_active : Bool
  created_at : Nat
  updated_at : Nat
deriving DecidableEq, Repr

/-- The field names of the persistent `User` record, in declaration order
(src/app/models.py lines 42-49). -/
def userFields : List String :=
  ["id", "email", "password_hash", "name", "role", "is_active",
   "created_at", "updated_at"]

/-- Persistent entity `SchoolClass` (src/app/models.py lines 56-66). -/
structure SchoolClass where
  id : Option Nat
  name : String
  grade_level : GradeLevel
  homeroom_teacher : Option String
  academic_year : String
  is_active : Bool
  created_at : Nat
  updated_at : Nat
deriving DecidableEq, Repr

/-- The declared string-length constraints of `SchoolClass`
(src/app/models.py lines 60-63): `name` 10, `homeroom_teacher` 100,
`academic_year` 9. -/
def SchoolClass.valid (c : SchoolClass) : Bool :=
  decide (c.name.length ≤ 10) && optLenLe c.homeroom_teacher 100 &&
    decide (c.academic_year.length ≤ 9)

/-- Persistent entity `Student` (src/app/models.py lines 72-89). -/
structure Student where
  id : Option Nat
  nis : String
  nisn : Option String
  name : String
  gender : Gender
  birth_place : Option String
  birth_date : Option Date
  address : Option String
  phone : Option String
  parent_name : Option String
  parent_phone : Option String
  class_id : Nat
  is_active : Bool
  created_at : Nat
  updated_at : Nat
deriving DecidableEq, Repr

/-- The declared string-length constraints of `Student` (src/app/models.py
lines 76-85): `nis` 20, `nisn` 20, `name` 100, `birth_place` 100,
`address` 500, `phone` 20, `parent_name` 100, `parent_phone` 20. -/
def Student.valid (s : Student) : Bool :=
  decide (s.nis.length ≤ 20) && optLenLe s.nisn 20 &&
    decide (s.name.length ≤ 100) && optLenLe s.birth_place 100 &&
    optLenLe s.address 500 && optLenLe s.phone 20 &&
    optLenLe s.parent_name 100 && optLenLe s.parent_phone 20

/-- Persistent entity `Employee` (src/app/models.py lines 96-113); `nip` is
optional yet declared unique. -/
structure Employee where
  id : Option Nat
  nip : Option String
  name : String
  gender : Gender
  position : Option String
  subject : Option String
  birth_place : Option String
  birth_date : Option Date
  address : Option String
  phone : Option String
  email : Option String
  hire_date : Option Date
  is_active : Bool
  created_at : Nat
  updated_at : Nat
deriving DecidableEq, Repr

/-- The declared string-length constraints of `Employee` (src/app/models.py
lines 100-109): `nip` 30, `name` 100, `position` 100, `subject` 100,
`birth_place` 100, `address` 500, `phone` 20, `email` 255. -/
def Employee.valid (e : Employee) : Bool :=
  optLenLe e.nip 30 && decide (e.name.length ≤ 100) &&
    optLenLe e.position 100 && optLenLe e.subject 100 &&
    optLenLe e.birth_place 100 && optLenLe e.address 500 &&
    optLenLe e.phone 20 && optLenLe e.email 255

/-- Persistent entity `Alumni` (src/app/models.py lines 116-134);
`graduation_year` carries the declared bounds `ge=2000, le=3000`. -/
structure Alumni where
  id : Option Nat
  nis : String
  nisn : Option String
  name : String
  gender : Gender
  graduation_year : Int
  last_class : String
  birth_place : Option String
  birth_date : Option Date
  address : Option String
  phone : Option String
  parent_name : Option String
  parent_phone : Option String
  current_activity : Option String
  created_at : Nat
  updated_at : Nat
deriving DecidableEq, Repr

/-- Persistent entity `SystemSettings` (src/app/models.py lines 165-181);
`max_permit_days` carries the declared bounds `ge=1, le=30`.  The
open-ended JSON map is abstracted as association pairs of strings. -/
structure SystemSettings where
  id : Option Nat
  school_name : String
  school_address : Option String
  school_phone : Option String
  school_email : Option String
  current_academic_year : String
  app_version : String
  maintenance_mode : Bool
  public_board_enabled : Bool
  max_permit_days : Int
  auto_approve_sick_permits : Bool
  notification_settings : List (String × String)
  created_at : Nat
  updated_at : Nat
deriving DecidableEq, Repr

/-- The declared constraints of `SystemSettings` (src/app/models.py lines
169-177): string maxima and `1 ≤ max_permit_days ≤ 30`. -/
def SystemSettings.valid (s : SystemSettings) : Bool :=
  decide (s.school_name.length ≤ 200) && optLenLe s.school_address 500 &&
    optLenLe s.school_phone 20 && optLenLe s.school_email 255 &&
    decide (s.current_academic_year.length ≤ 9) &&
    decide (s.app_version.length ≤ 10) &&
    decide (1 ≤ s.max_permit_days ∧ s.max_permit_days ≤ 30)

/-- Input schema `UserCreate` (src/app/models.py lines 200-204): the
plaintext password is accepted here, with `min_length=6, max_length=100`. -/
structure UserCreate where
  email : String
  password : String
  name : String
  role : UserRole
deriving DecidableEq, Repr

/-- The declared constraints of `UserCreate` (src/app/models.py lines
201-203): `email` max 255, `password` length in [6, 100], `name` max 100. -/
def UserCreate.valid (u : UserCreate) : Bool :=
  decide (u.email.length ≤ 255) && decide (6 ≤ u.password.length) &&
    decide (u.password.length ≤ 100) && decide (u.name.length ≤ 100)

/-- Input schema `AlumniCreate` (src/app/models.py lines 304-317). -/
structure AlumniCreate where
  nis : String
  nisn : Option String
  name : String
  gender : Gender
  graduation_year : Int
  last_class : String
  birth_place : Option String
  birth_date : Option Date
  address : Option String
  phone : Option String
  parent_name : Option String
  parent_phone : Option String
  current_activity : Option String
deriving DecidableEq, Repr

/-- The declared constraints of `AlumniCreate` (src/app/models.py lines
305-317), in particular `2000 ≤ graduation_year ≤ 3000`. -/
def AlumniCreate.valid (a : AlumniCreate) : Bool :=
  decide (a.nis.length ≤ 20) && optLenLe a.nisn 20 &&
    decide (a.name.length ≤ 100) &&
    decide (2000 ≤ a.graduation_year ∧ a.graduation_year ≤ 3000) &&
    decide (a.last_class.length ≤ 10) && optLenLe a.birth_place 100 &&
    optLenLe a.address 500 && optLenLe a.phone 20 &&
    optLenLe a.parent_name 100 && optLenLe a.parent_phone 20 &&
    optLenLe a.current_activity 200

/-- Input schema `AlumniUpdate` (src/app/models.py lines 320-333): every
field optional; `graduation_year`, when provided, keeps its bounds. -/
structure AlumniUpdate where
  nis : Option String
  nisn : Option String
  name : Option String
  gender : Option Gender
  graduation_year : Option Int
  last_class : Option String
  birth_place : Option String
  birth_date : Option Date
  address : Option String
  phone : Option String
  parent_name : Option String
  parent_phone : Option String
  current_activity : Option String
deriving DecidableEq, Repr

/-- The declared constraints of `AlumniUpdate` (src/app/models.py lines
321-333); optional fields are checked only when present. -/
def AlumniUpdate.valid (a : AlumniUpdate) : Bool :=
  optLenLe a.nis 20 && optLenLe a.nisn 20 && optLenLe a.name 100 &&
    (match a.graduation_year with
     | none => true
     | some y => decide (2000 ≤ y ∧ y ≤ 3000)) &&
    optLenLe a.last_class 10 && optLenLe a.birth_place 100 &&
    optLenLe a.address 500 && optLenLe a.phone 20 &&
    optLenLe a.parent_name 100 && optLenLe a.parent_phone 20 &&
    optLenLe a.current_activity 200

/-- Input schema `SystemSettingsUpdate` (src/app/models.py lines 336-346). -/
structure SystemSettingsUpdate where
  school_name : Option String
  school_address : Option String
  school_phone : Option String
  school_email : Option String
  current_academic_year : Option String
  maintenance_mode : Option Bool
  public_board_enabled : Option Bool
  max_permit_days : Option Int
  auto_approve_sick_permits : Option Bool
  notification_settings : Option (List (String × String))
deriving DecidableEq, Repr

/-- The declared constraints of `SystemSettingsUpdate` (src/app/models.py
lines 337-344), in particular `1 ≤ max_permit_days ≤ 30` when provided. -/
def SystemSettingsUpdate.valid (s : SystemSettingsUpdate) : Bool :=
  optLenLe s.school_name 200 && optLenLe s.school_address 500 &&
    optLenLe s.school_phone 20 && optLenLe s.school_email 255 &&
    optLenLe s.current_academic_year 9 &&
    (match s.max_permit_days with
     | none => true
     | some d => decide (1 ≤ d ∧ d ≤ 30))

/-- The declared string-length constraints of `User` (src/app/models.py
lines 43-45): `email` 255, `password_hash` 255, `name` 100.  The declared
email regex is a pattern constraint, separate from the length maxima. -/
def User.lengthsValid (u : User) : Bool :=
  decide (u.email.length ≤ 255) && decide (u.password_hash.length ≤ 255) &&
    decide (u.name.length ≤ 100)

/-- The declared constraints of `Alumni` (src/app/models.py lines 120-132):
string maxima plus `2000 ≤ graduation_year ≤ 3000`. -/
def Alumni.valid (a : Alumni) : Bool :=
  decide (a.nis.length ≤ 20) && optLenLe a.nisn 20 &&
    decide (a.name.length ≤ 100) &&
    decide (2000 ≤ a.graduation_year ∧ a.graduation_year ≤ 3000) &&
    decide (a.last_class.length ≤ 10) && optLenLe a.birth_place 100 &&
    optLenLe a.address 500 && optLenLe a.phone 20 &&
    optLenLe a.parent_name 100 && optLenLe a.parent_phone 20 &&
    optLenLe a.current_activity 200

/-- Persistent entity `AuditLog` (src/app/models.py lines 184-196); the
JSON value snapshots are abstracted as association pairs of strings. -/
structure AuditLog where
  id : Option Nat
  user_id : Option Nat
  action : String
  table_name : String
  record_id : Option Nat
  old_values : Option (List (String × String))
  new_values : Option (List (String × String))
  ip_address : Option String
  user_agent : Option String
  created_at : Nat
deriving DecidableEq, Repr

/-- The declared string-length constraints of `AuditLog` (src/app/models.py
lines 189-195): `action` 100, `table_name` 50, `ip_address` 45,
`user_agent` 500. -/
def AuditLog.valid (l : AuditLog) : Bool :=
  decide (l.action.length ≤ 100) && decide (l.table_name.length ≤ 50) &&
    optLenLe l.ip_address 45 && optLenLe l.user_agent 500

/-- Input schema `UserUpdate` (src/app/models.py lines 207-210). -/
structure UserUpdate where
  name : Option String
  role : Option UserRole
  is_active : Option Bool
deriving DecidableEq, Repr

/-- The declared constraints of `UserUpdate` (src/app/models.py line 208):
`name` max 100 when provided. -/
def UserUpdate.valid (u : UserUpdate) : Bool :=
  optLenLe u.name 100

/-- Input schema `StudentCreate` (src/app/models.py lines 213-224). -/
structure StudentCreate where
  nis : String
  nisn : Option String
  name : String
  gender : Gender
  birth_place : Option String
  birth_date : Option Date
  address : Option String
  phone : Option String
  parent_name : Option String
  parent_phone : Option String
  class_id : Nat
deriving DecidableEq, Repr

/-- The declared constraints of `StudentCreate` (src/app/models.py lines
214-223). -/
def StudentCreate.valid (s : StudentCreate) : Bool :=
  decide (s.nis.length ≤ 20) && optLenLe s.nisn 20 &&
    decide (s.name.length ≤ 100) && optLenLe s.birth_place 100 &&
    optLenLe s.address 500 && optLenLe s.phone 20 &&
    optLenLe s.parent_name 100 && optLenLe s.parent_phone 20

/-- Input schema `StudentUpdate` (src/app/models.py lines 227-239). -/
structure StudentUpdate where
  nis : Option String
  nisn : Option String
  name : Option String
  gender : Option Gender
  birth_place : Option String
  birth_date : Option Date
  address : Option String
  phone : Option String
  parent_name : Option String
  parent_phone : Option String
  class_id : Option Nat
  is_active : Option Bool
deriving DecidableEq, Repr

/-- The declared constraints of `StudentUpdate` (src/app/models.py lines
228-237). -/
def StudentUpdate.valid (s : StudentUpdate) : Bool :=
  optLenLe s.nis 20 && optLenLe s.nisn 20 && optLenLe s.name 100 &&
    optLenLe s.birth_place 100 && optLenLe s.address 500 &&
    optLenLe s.phone 20 && optLenLe s.parent_name 100 &&
    optLenLe s.parent_phone 20

/-- The declared constraints of `PermitCreate` (src/app/models.py lines
245 and 248): `reason` max 500, `notes` max 1000. -/
def PermitCreate.valid (p : PermitCreate) : Bool :=
  decide (p.reason.length ≤ 500) && optLenLe p.notes 1000

/-- Input schema `PermitUpdate` (src/app/models.py lines 251-258). -/
structure PermitUpdate where
  permit_type : Option PermitType
  reason : Option String
  start_date : Option Date
  end_date : Option Date
  status : Option PermitStatus
  notes : Option String
  approval_notes : Option String
deriving DecidableEq, Repr

/-- The declared constraints of `PermitUpdate` (src/app/models.py lines
253 and 257-258): `reason` 500, `notes` 1000, `approval_notes` 500. -/
def PermitUpdate.valid (p : PermitUpdate) : Bool :=
  optLenLe p.reason 500 && optLenLe p.notes 1000 &&
    optLenLe p.approval_notes 500

/-- Input schema `SchoolClassCreate` (src/app/models.py lines 261-265). -/
structure SchoolClassCreate where
  name : String
  grade_level : GradeLevel
  homeroom_teacher : Option String
  academic_year : String
deriving DecidableEq, Repr

/-- The declared constraints of `SchoolClassCreate` (src/app/models.py
lines 262-265). -/
def SchoolClassCreate.valid (c : SchoolClassCreate) : Bool :=
  decide (c.name.length ≤ 10) && optLenLe c.homeroom_teacher 100 &&
    decide (c.academic_year.length ≤ 9)

/-- Input schema `SchoolClassUpdate` (src/app/models.py lines 268-272). -/
structure SchoolClassUpdate where
  name : Option String
  homeroom_teacher : Option String
  academic_year : Option String
  is_active : Option Bool
deriving DecidableEq, Repr

/-- The declared constraints of `SchoolClassUpdate` (src/app/models.py
lines 269-271). -/
def SchoolClassUpdate.valid (c : SchoolClassUpdate) : Bool :=
  optLenLe c.name 10 && optLenLe c.homeroom_teacher 100 &&
    optLenLe c.academic_year 9

/-- Input schema `EmployeeCreate` (src/app/models.py lines 275-286). -/
structure EmployeeCreate where
  nip : Option String
  name : String
  gender : Gender
  position : Option String
  subject : Option String
  birth_place : Option String
  birth_date : Option Date
  address : Option String
  phone : Option String
  email : Option String
  hire_date : Option Date
deriving DecidableEq, Repr

/-- The declared constraints of `EmployeeCreate` (src/app/models.py lines
276-285). -/
def EmployeeCreate.valid (e : EmployeeCreate) : Bool :=
  optLenLe e.nip 30 && decide (e.name.length ≤ 100) &&
    optLenLe e.position 100 && optLenLe e.subject 100 &&
    optLenLe e.birth_place 100 && optLenLe e.address 500 &&
    optLenLe e.phone 20 && optLenLe e.email 255

/-- Input schema `EmployeeUpdate` (src/app/models.py lines 289-301). -/
structure EmployeeUpdate where
  nip : Option String
  name : Option String
  gender : Option Gender
  position : Option String
  subject : Option String
  birth_place : Option String
  birth_date : Option Date
  address : Option String
  phone : Option String
  email : Option String
  hire_date : Option Date
  is_active : Option Bool
deriving DecidableEq, Repr

/-- The declared constraints of `EmployeeUpdate` (src/app/models.py lines
290-299). -/
def EmployeeUpdate.valid (e : EmployeeUpdate) : Bool :=
  optLenLe e.nip 30 && optLenLe e.name 100 && optLenLe e.position 100 &&
    optLenLe e.subject 100 && optLenLe e.birth_place 100 &&
    optLenLe e.address 500 && optLenLe e.phone 20 && optLenLe e.email 255

/-- Output schema `PublicPermitInfo` (src/app/models.py lines 372-378): the
public-board projection carries exactly these six string fields. -/
structure PublicPermitInfo where
  student_name : String
  class_name : String
  permit_type : String
  reason : String
  start_date : String
  end_date : String
deriving DecidableEq, Repr

/-!
Field inventories of the create/update schema pairs, in declaration order.
Each entry is the field's name paired with whether the field is declared
`Optional[...]` with default `None` in the source.
-/

/-- Fields of `UserCreate` (src/app/models.py lines 200-204). -/
def userCreateFields : List (String × Bool) :=
  [("email", false), ("password", false), ("name", false), ("role", false)]

/-- Fields of `UserUpdate` (src/app/models.py lines 207-210). -/
def userUpdateFields : List (String × Bool) :=
  [("name", true), ("role", true), ("is_active", true)]

/-- Fields of `StudentCreate` (src/app/models.py lines 213-224). -/
def studentCreateFields : List (String × Bool) :=
  [("nis", false), ("nisn", true), ("name", false), ("gender", false),
   ("birth_place", true), ("birth_date", true), ("address", true),
   ("phone", true), ("parent_name", true), ("parent_phone", true),
   ("class_id", false)]

/-- Fields of `StudentUpdate` (src/app/models.py lines 227-239). -/
def studentUpdateFields : List (String × Bool) :=
  [("nis", true), ("nisn", true), ("name", true), ("gender", true),
   ("birth_place", true), ("birth_date", true), ("address", true),
   ("phone", true), ("parent_name", true), ("parent_phone", true),
   ("class_id", true), ("is_active", true)]

/-- Fields of `PermitCreate` (src/app/models.py lines 242-248). -/
def permitCreateFields : List (String × Bool) :=
  [("student_id", false), ("permit_type", false), ("reason", false),
   ("start_date", false), ("end_date", false), ("notes", true)]

/-- Fields of `PermitUpdate` (src/app/models.py lines 251-258). -/
def permitUpdateFields : List (String × Bool) :=
  [("permit_type", true), ("reason", true), ("start_date", true),
   ("end_date", true), ("status", true), ("notes", true),
   ("approval_notes", true)]

/-- Fields of `SchoolClassCreate` (src/app/models.py lines 261-265). -/
def schoolClassCreateFields : List (String × Bool) :=
  [("name", false), ("grade_level", false), ("homeroom_teacher", true),
   ("academic_year", false)]

/-- Fields of `SchoolClassUpdate` (src/app/models.py lines 268-272). -/
def schoolClassUpdateFields : List (String × Bool) :=
  [("name", true), ("homeroom_teacher", true), ("academic_year", true),
   ("is_active", true)]

/-- Fields of `EmployeeCreate` (src/app/models.py lines 275-286). -/
def employeeCreateFields : List (String × Bool) :=
  [("nip", true), ("name", false), ("gender", false), ("position", true),
   ("subject", true), ("birth_place", true), ("birth_date", true),
   ("address", true), ("phone", true), ("email", true), ("hire_date", true)]

/-- Fields of `EmployeeUpdate` (src/app/models.py lines 289-301). -/
def employeeUpdateFields : List (String × Bool) :=
  [("nip", true), ("name", true), ("gender", true), ("position", true),
   ("subject", true), ("birth_place", true), ("birth_date", true),
   ("address", true), ("phone", true), ("email", true), ("hire_date", true),
   ("is_active", true)]

/-- Fields of `AlumniCreate` (src/app/models.py lines 304-317). -/
def alumniCreateFields : List (String × Bool) :=
  [("nis", false), ("nisn", true), ("name", false), ("gender", false),
   ("graduation_year", false), ("last_class", false), ("birth_place", true),
   ("birth_date", true), ("address", true), ("phone", true),
   ("parent_name", true), ("parent_phone", true), ("current_activity", true)]

/-- Fields of `AlumniUpdate` (src/app/models.py lines 320-333). -/
def alumniUpdateFields : List (String × Bool) :=
  [("nis", true), ("nisn", true), ("name", true), ("gender", true),
   ("graduation_year", true), ("last_class", true), ("birth_place", true),
   ("birth_date", true), ("address", true), ("phone", true),
   ("parent_name", true), ("parent_phone", true), ("current_activity", true)]

/-- Fields of `SystemSettingsUpdate` (src/app/models.py lines 336-346). -/
def systemSettingsUpdateFields : List (String × Bool) :=
  [("school_name", true), ("school_address", true), ("school_phone", true),
   ("school_email", true), ("current_academic_year", true),
   ("maintenance_mode", true), ("public_board_enabled", true),
   ("max_permit_days", true), ("auto_approve_sick_permits", true),
   ("notification_settings", true)]

/-!
Storage-layer insertion with uniqueness enforcement.  The source declares
`unique=True` on `User.email`, `SchoolClass.name`, `Student.nis` and
`Employee.nip`; the enforcing storage layer is outside `src`, so the
operations below are modelled from the spec (sections 5 and 7): a duplicate
value for a unique field fails the insert with a uniqueness conflict —
an error kind distinct from validation errors — and leaves the stored
rows untouched.  A row whose optional unique field is absent conflicts
with nothing.
-/

/-- Modelled from the spec: insertion of a `Student` enforcing the declared
uniqueness of `nis` (src/app/models.py line 76). -/
def insertStudent (db : List Student) (s : Student) :
    List Student × Option ModelError :=
  if db.any (fun t => decide (t.nis = s.nis)) then
    (db, some (ModelError.uniqueness "nis"))
  else (db ++ [s], none)

/-- Modelled from the spec: insertion of a `User` enforcing the declared
uniqueness of `email` (src/app/models.py line 43). -/
def insertUser (db : List User) (u : User) :
    List User × Option ModelError :=
  if db.any (fun t => decide (t.email = u.email)) then
    (db, some (ModelError.uniqueness "email"))
  else (db ++ [u], none)

/-- Modelled from the spec: insertion of a `SchoolClass` enforcing the
declared uniqueness of `name` (src/app/models.py line 60). -/
def insertSchoolClass (db : List SchoolClass) (c : SchoolClass) :
    List SchoolClass × Option ModelError :=
  if db.any (fun t => decide (t.name = c.name)) then
    (db, some (ModelError.uniqueness "name"))
  else (db ++ [c], none)

/-- Modelled from the spec: insertion of an `Employee` enforcing the
declared uniqueness of the optional `nip` (src/app/models.py line 100);
absent values do not conflict. -/
def insertEmployee (db : List Employee) (e : Employee) :
    List Employee × Option ModelError :=
  match e.nip with
  | none => (db ++ [e], none)
  | some v =>
    if db.any (fun t => decide (t.nip = some v)) then
      (db, some (ModelError.uniqueness "nip"))
    else (db ++ [e], none)

/-!
The public board.  The `PublicPermitInfo` shape is in the source; the
listing operation that fills it is outside `src` and is modelled from the
spec (section 6): only `approved` permits appear, projected onto the six
public fields.
-/

/-- Modelled from the spec: the projection of one permit onto the public
shape; student and class names are resolved through the given lookups. -/
def toPublicInfo (studentName className : Nat → String)
    (p : StudentPermit) : PublicPermitInfo :=
  { student_name := studentName p.student_id
    class_name := className p.student_id
    permit_type := p.permit_type.code
    reason := p.reason
    start_date := p.start_date.isoString
    end_date := p.end_date.isoString }

/-- Modelled from the spec: the public-listing operation keeps only
permits in `approved` status and projects each onto `PublicPermitInfo`. -/
def publicBoard (studentName className : Nat → String)
    (permits : List StudentPermit) : List PublicPermitInfo :=
  (permits.filter (fun p => decide (p.status = PermitStatus.approved))).map
    (toPublicInfo studentName className)

/-!
The attendance-tracking schema (`AttendanceRecord`, `AttendanceSummary`)
belongs to this repository but is not under `src`; the definitions below
are modelled from the spec (sections 3 and 4.3).
-/

/-- Modelled from the spec: the attendance status codes
(present/absent/late/excused). -/
inductive AttendanceStatus where
  | present
  | absent
  | late
  | excused
deriving DecidableEq, Repr

/-- Modelled from the spec: an `AttendanceRecord` — one per (student, date)
in practice — with a status, optional check-in time, notes and recorder. -/
structure AttendanceRecord where
  student_id : Nat
  attendance_date : Date
  status : AttendanceStatus
  check_in_time : Option Nat
  notes : Option String
  recorded_by : Nat
deriving DecidableEq, Repr

/-- Modelled from the spec: an `AttendanceSummary` row — one per calendar
date — holding per-status counts, the total of active students and a
computed percentage. -/
structure AttendanceSummary where
  summary_date : Date
  total_students : Nat
  present_count : Nat
  absent_count : Nat
  late_count : Nat
  excused_count : Nat
  attendance_percentage : ℚ
deriving DecidableEq, Repr

/-- Modelled from the spec: the status of a student on a date, from the
current records; a student with no record for the date counts as absent. -/
def statusFor (records : List AttendanceRecord) (d : Date)
    (sid : Nat) : AttendanceStatus :=
  match records.find?
      (fun r => decide (r.student_id = sid ∧ r.attendance_date = d)) with
  | some r => r.status
  | none => AttendanceStatus.absent

/-- Modelled from the spec: recomputation of the summary row for a date
from the full set of current records and the active students; a date with
zero active students yields percentage 0 rather than a division fault. -/
def recomputeSummary (active : List Nat) (records : List AttendanceRecord)
    (d : Date) : AttendanceSummary :=
  let sts := active.map (statusFor records d)
  { summary_date := d
    total_students := active.length
    present_count := sts.count AttendanceStatus.present
    absent_count := sts.count AttendanceStatus.absent
    late_count := sts.count AttendanceStatus.late
    excused_count := sts.count AttendanceStatus.excused
    attendance_percentage :=
      if active.length = 0 then 0
      else (sts.count AttendanceStatus.present : ℚ) * 100 / active.length }

/-- Modelled from the spec: storing a recomputation — the summary row for
the date is replaced (unique on date) by the freshly recomputed row. -/
def updateSummaries (db : List AttendanceSummary) (active : List Nat)
    (records : List AttendanceRecord) (d : Date) : List AttendanceSummary :=
  (db.filter (fun s => decide (s.summary_date ≠ d))) ++
    [recomputeSummary active records d]

/-!
Concrete sample records, used to exercise the theorems on closed inputs.
-/

/-- A permit already in the terminal `approved` status. -/
def samplePermit : StudentPermit :=
  { id := some 1
    student_id := 1
    permit_type := PermitType.sick
    reason := "sakit demam"
    start_date := ⟨2024, 3, 1⟩
    end_date := ⟨2024, 3, 2⟩
    status := PermitStatus.approved
    notes := none
    approval_notes := some "ok"
    created_by := 1
    updated_by := some 2
    created_at := 0
    updated_at := 1
    approved_at := some 1 }

/-- The spec's example input: `start_date=2024-03-10`, `end_date=2024-03-08`. -/
def samplePermitCreateBad : PermitCreate :=
  { student_id := 1
    permit_type := PermitType.sick
    reason := "sakit"
    start_date := ⟨2024, 3, 10⟩
    end_date := ⟨2024, 3, 8⟩
    notes := none }

/-- A well-formed permit-creation input. -/
def samplePermitCreateGood : PermitCreate :=
  { student_id := 1
    permit_type := PermitType.family_matter
    reason := "urusan keluarga"
    start_date := ⟨2024, 3, 8⟩
    end_date := ⟨2024, 3, 10⟩
    notes := some "izin" }

/-- A stored student row. -/
def sampleStudent : Student :=
  { id := some 1
    nis := "12345"
    nisn := none
    name := "Budi"
    gender := Gender.male
    birth_place := none
    birth_date := none
    address := none
    phone := none
    parent_name := none
    parent_phone := none
    class_id := 1
    is_active := true
    created_at := 0
    updated_at := 0 }

/-- A second student duplicating `sampleStudent`'s `nis`. -/
def sampleStudentDup : Student :=
  { sampleStudent with id := some 2, name := "Siti", gender := Gender.female }

/-- A stored user row. -/
def sampleUser : User :=
  { id := some 1
    email := "admin@sekolah.sch.id"
    password_hash := "hash1"
    name := "Admin"
    role := UserRole.admin
    is_active := true
    created_at := 0
    updated_at := 0 }

/-- A second user duplicating `sampleUser`'s `email`. -/
def sampleUserDup : User :=
  { sampleUser with id := some 2, password_hash := "hash2", name := "Staf" }

/-- A stored class row. -/
def sampleSchoolClass : SchoolClass :=
  { id := some 1
    name := "7A"
    grade_level := GradeLevel.grade_7
    homeroom_teacher := none
    academic_year := "2023/2024"
    is_active := true
    created_at := 0
    updated_at := 0 }

/-- A second class duplicating `sampleSchoolClass`'s `name`. -/
def sampleSchoolClassDup : SchoolClass :=
  { sampleSchoolClass with id := some 2, academic_year := "2024/2025" }

/-- A stored employee row with a `nip` value. -/
def sampleEmployee : Employee :=
  { id := some 1
    nip := some "19800101"
    name := "Pak Guru"
    gender := Gender.male
    position := none
    subject := none
    birth_place := none
    birth_date := none
    address := none
    phone := none
    email := none
    hire_date := none
    is_active := true
    created_at := 0
    updated_at := 0 }

/-- A second employee duplicating `sampleEmployee`'s non-null `nip`. -/
def sampleEmployeeDup : Employee :=
  { sampleEmployee with id := some 2, name := "Bu Guru", gender := Gender.female }

/-- An employee with no `nip` at all. -/
def sampleEmployeeNoNip : Employee :=
  { sampleEmployee with id := some 3, nip := none, name := "Honorer" }

/-- An alumni-creation input whose graduation year is below the bound. -/
def sampleAlumniBad : AlumniCreate :=
  { nis := "12345"
    nisn := none
    name := "Budi"
    gender := Gender.male
    graduation_year := 1999
    last_class := "9A"
    birth_place := none
    birth_date := none
    address := none
    phone := none
    parent_name := none
    parent_phone := none
    current_activity := none }

/-- A settings row whose permit-day cap is below the bound. -/
def sampleSettingsBad : SystemSettings :=
  { id := some 1
    school_name := "SMP NEGERI 2 JATIROGO"
    school_address := none
    school_phone := none
    school_email := none
    current_academic_year := "2024/2025"
    app_version := "1.0.0"
    maintenance_mode := false
    public_board_enabled := true
    max_permit_days := 0
    auto_approve_sick_permits := false
    notification_settings := []
    created_at := 0
    updated_at := 0 }

/-- A user-creation input whose password is shorter than six characters. -/
def sampleUserCreateShort : UserCreate :=
  { email := "a@b.id"
    password := "abc"
    name := "Budi"
    role := UserRole.staff }

/-!
Helper lemmas.
-/

/-- The four status counts of any status list partition its length. -/
theorem count_status_partition (l : List AttendanceStatus) :
    l.count AttendanceStatus.present + l.count AttendanceStatus.absent +
      l.count AttendanceStatus.late + l.count AttendanceStatus.excused =
      l.length := by
  induction l with
  | nil => rfl
  | cons h t ih =>
    cases h <;> simp [List.count_cons] <;> omega

/-- Filtering twice with one predicate is filtering once. -/
theorem filter_same {α : Type} (p : α → Bool) (l : List α) :
    (l.filter p).filter p = l.filter p := by
  induction l with
  | nil => rfl
  | cons h t ih =>
    by_cases hp : p h = true <;> simp [List.filter_cons, hp, ih]

/-- The recomputed summary is dated with the requested date. -/
theorem recomputeSummary_date (active : List Nat)
    (records : List AttendanceRecord) (d : Date) :
    (recomputeSummary active records d).summary_date = d := rfl

/-- C1: a transition attempted on a permit in a terminal status
(`approved`, `rejected` or `cancelled`) fails with a state-conflict error
and leaves every field of the record unchanged; a transition succeeds only
out of `pending`. -/
theorem terminal_transition_state_conflict :
    (∀ (p : StudentPermit) (s : PermitStatus) (actor now : Nat)
        (anotes : Option String),
      (p.status = PermitStatus.approved ∨ p.status = PermitStatus.rejected ∨
        p.status = PermitStatus.cancelled) →
      tryTransition p s actor now anotes = (p, some ModelError.stateConflict)) ∧
    (∀ (p : StudentPermit) (s : PermitStatus) (actor now : Nat)
        (anotes : Option String),
      (tryTransition p s actor now anotes).2 = none →
      p.status = PermitStatus.pending) := by
  constructor
  · intro p s actor now anotes h
    rcases h with h | h | h <;> simp [tryTransition, applyTransition, h]
  · intro p s actor now anotes h
    cases hp : p.status
    case pending => rfl
    all_goals simp [tryTransition, applyTransition, hp] at h

/-- C1 witness: rejecting the already-approved `samplePermit` fails with a
state conflict and returns the record unchanged. -/
theorem terminal_transition_state_conflict_witness :
    tryTransition samplePermit PermitStatus.rejected 2 5 none =
      (samplePermit, some ModelError.stateConflict) :=
  terminal_transition_state_conflict.1 samplePermit PermitStatus.rejected 2 5
    none (Or.inl rfl)

/-- C2: permit-creation validation rejects an input whose start date is
strictly after its end date — in particular the spec's example input — and
every input that passes validation has `start_date ≤ end_date`. -/
theorem permit_create_date_range :
    (∀ p : PermitCreate, Date.le p.start_date p.end_date = false →
      ∀ q, validatePermitCreate p ≠ Except.ok q) ∧
    (∀ p q : PermitCreate, validatePermitCreate p = Except.ok q →
      Date.le p.start_date p.end_date = true) ∧
    validatePermitCreate samplePermitCreateBad =
      Except.error (ModelError.validation "start_date") := by
  refine ⟨?_, ?_, rfl⟩
  · intro p h q
    unfold validatePermitCreate
    split_ifs with h1 h2 h3 <;> simp_all
  · intro p q h
    unfold validatePermitCreate at h
    split_ifs at h with h1 h2 h3
    simp_all

/-- C2 witness: the well-formed sample input passes validation, hence its
dates are in order. -/
theorem permit_create_date_range_witness :
    Date.le samplePermitCreateGood.start_date samplePermitCreateGood.end_date
      = true :=
  permit_create_date_range.2.1 samplePermitCreateGood samplePermitCreateGood
    rfl

/-- C3: for every persistent entity and every non-persistent input schema,
validation succeeds exactly when every field is within its declared
bounds — in particular any string field whose length exceeds its declared
maximum fails validation, and a record with every field within bounds
passes. -/
theorem string_length_validation :
    (∀ u : User, User.lengthsValid u = true ↔
      (u.email.length ≤ 255 ∧ u.password_hash.length ≤ 255 ∧
       u.name.length ≤ 100)) ∧
    (∀ c : SchoolClass, SchoolClass.valid c = true ↔
      (c.name.length ≤ 10 ∧
       (∀ t, c.homeroom_teacher = some t → t.length ≤ 100) ∧
       c.academic_year.length ≤ 9)) ∧
    (∀ s : Student, Student.valid s = true ↔
      (s.nis.length ≤ 20 ∧ (∀ t, s.nisn = some t → t.length ≤ 20) ∧
       s.name.length ≤ 100 ∧
       (∀ t, s.birth_place = some t → t.length ≤ 100) ∧
       (∀ t, s.address = some t → t.length ≤ 500) ∧
       (∀ t, s.phone = some t → t.length ≤ 20) ∧
       (∀ t, s.parent_name = some t → t.length ≤ 100) ∧
       (∀ t, s.parent_phone = some t → t.length ≤ 20))) ∧
    (∀ e : Employee, Employee.valid e = true ↔
      ((∀ t, e.nip = some t → t.length ≤ 30) ∧ e.name.length ≤ 100 ∧
       (∀ t, e.position = some t → t.length ≤ 100) ∧
       (∀ t, e.subject = some t → t.length ≤ 100) ∧
       (∀ t, e.birth_place = some t → t.length ≤ 100) ∧
       (∀ t, e.address = some t → t.length ≤ 500) ∧
       (∀ t, e.phone = some t → t.length ≤ 20) ∧
       (∀ t, e.email = some t → t.length ≤ 255))) ∧
    (∀ a : Alumni, Alumni.valid a = true ↔
      (a.nis.length ≤ 20 ∧ (∀ t, a.nisn = some t → t.length ≤ 20) ∧
       a.name.length ≤ 100 ∧
       (2000 ≤ a.graduation_year ∧ a.graduation_year ≤ 3000) ∧
       a.last_class.length ≤ 10 ∧
       (∀ t, a.birth_place = some t → t.length ≤ 100) ∧
       (∀ t, a.address = some t → t.length ≤ 500) ∧
       (∀ t, a.phone = some t → t.length ≤ 20) ∧
       (∀ t, a.parent_name = some t → t.length ≤ 100) ∧
       (∀ t, a.parent_phone = some t → t.length ≤ 20) ∧
       (∀ t, a.current_activity = some t → t.length ≤ 200))) ∧
    (∀ p : StudentPermit, StudentPermit.valid p = true ↔
      (p.reason.length ≤ 500 ∧
       (∀ t, p.notes = some t → t.length ≤ 1000) ∧
       (∀ t, p.approval_notes = some t → t.length ≤ 500))) ∧
    (∀ s : SystemSettings, SystemSettings.valid s = true ↔
      (s.school_name.length ≤ 200 ∧
       (∀ t, s.school_address = some t → t.length ≤ 500) ∧
       (∀ t, s.school_phone = some t → t.length ≤ 20) ∧
       (∀ t, s.school_email = some t → t.length ≤ 255) ∧
       s.current_academic_year.length ≤ 9 ∧ s.app_version.length ≤ 10 ∧
       (1 ≤ s.max_permit_days ∧ s.max_permit_days ≤ 30))) ∧
    (∀ l : AuditLog, AuditLog.valid l = true ↔
      (l.action.length ≤ 100 ∧ l.table_name.length ≤ 50 ∧
       (∀ t, l.ip_address = some t → t.length ≤ 45) ∧
       (∀ t, l.user_agent = some t → t.length ≤ 500))) ∧
    (∀ u : UserCreate, UserCreate.valid u = true ↔
      (u.email.length ≤ 255 ∧ 6 ≤ u.password.length ∧
       u.password.length ≤ 100 ∧ u.name.length ≤ 100)) ∧
    (∀ u : UserUpdate, UserUpdate.valid u = true ↔
      (∀ t, u.name = some t → t.length ≤ 100)) ∧
    (∀ s : StudentCreate, StudentCreate.valid s = true ↔
      (s.nis.length ≤ 20 ∧ (∀ t, s.nisn = some t → t.length ≤ 20) ∧
       s.name.length ≤ 100 ∧
       (∀ t, s.birth_place = some t → t.length ≤ 100) ∧
       (∀ t, s.address = some t → t.length ≤ 500) ∧
       (∀ t, s.phone = some t → t.length ≤ 20) ∧
       (∀ t, s.parent_name = some t → t.length ≤ 100) ∧
       (∀ t, s.parent_phone = some t → t.length ≤ 20))) ∧
    (∀ s : StudentUpdate, StudentUpdate.valid s = true ↔
      ((∀ t, s.nis = some t → t.length ≤ 20) ∧
       (∀ t, s.nisn = some t → t.length ≤ 20) ∧
       (∀ t, s.name = some t → t.length ≤ 100) ∧
       (∀ t, s.birth_place = some t → t.length ≤ 100) ∧
       (∀ t, s.address = some t → t.length ≤ 500) ∧
       (∀ t, s.phone = some t → t.length ≤ 20) ∧
       (∀ t, s.parent_name = some t → t.length ≤ 100) ∧
       (∀ t, s.parent_phone = some t → t.length ≤ 20))) ∧
    (∀ p : PermitCreate, PermitCreate.valid p = true ↔
      (p.reason.length ≤ 500 ∧
       (∀ t, p.notes = some t → t.length ≤ 1000))) ∧
    (∀ p : PermitUpdate, PermitUpdate.valid p = true ↔
      ((∀ t, p.reason = some t → t.length ≤ 500) ∧
       (∀ t, p.notes = some t → t.length ≤ 1000) ∧
       (∀ t, p.approval_notes = some t → t.length ≤ 500))) ∧
    (∀ c : SchoolClassCreate, SchoolClassCreate.valid c = true ↔
      (c.name.length ≤ 10 ∧
       (∀ t, c.homeroom_teacher = some t → t.length ≤ 100) ∧
       c.academic_year.length ≤ 9)) ∧
    (∀ c : SchoolClassUpdate, SchoolClassUpdate.valid c = true ↔
      ((∀ t, c.name = some t → t.length ≤ 10) ∧
       (∀ t, c.homeroom_teacher = some t → t.length ≤ 100) ∧
       (∀ t, c.academic_year = some t → t.length ≤ 9))) ∧
    (∀ e : EmployeeCreate, EmployeeCreate.valid e = true ↔
      ((∀ t, e.nip = some t → t.length ≤ 30) ∧ e.name.length ≤ 100 ∧
       (∀ t, e.position = some t → t.length ≤ 100) ∧
       (∀ t, e.subject = some t → t.length ≤ 100) ∧
       (∀ t, e.birth_place = some t → t.length ≤ 100) ∧
       (∀ t, e.address = some t → t.length ≤ 500) ∧
       (∀ t, e.phone = some t → t.length ≤ 20) ∧
       (∀ t, e.email = some t → t.length ≤ 255))) ∧
    (∀ e : EmployeeUpdate, EmployeeUpdate.valid e = true ↔
      ((∀ t, e.nip = some t → t.length ≤ 30) ∧
       (∀ t, e.name = some t → t.length ≤ 100) ∧
       (∀ t, e.position = some t → t.length ≤ 100) ∧
       (∀ t, e.subject = some t → t.length ≤ 100) ∧
       (∀ t, e.birth_place = some t → t.length ≤ 100) ∧
       (∀ t, e.address = some t → t.length ≤ 500) ∧
       (∀ t, e.phone = some t → t.length ≤ 20) ∧
       (∀ t, e.email = some t → t.length ≤ 255))) ∧
    (∀ a : AlumniCreate, AlumniCreate.valid a = true ↔
      (a.nis.length ≤ 20 ∧ (∀ t, a.nisn = some t → t.length ≤ 20) ∧
       a.name.length ≤ 100 ∧
       (2000 ≤ a.graduation_year ∧ a.graduation_year ≤ 3000) ∧
       a.last_class.length ≤ 10 ∧
       (∀ t, a.birth_place = some t → t.length ≤ 100) ∧
       (∀ t, a.address = some t → t.length ≤ 500) ∧
       (∀ t, a.phone = some t → t.length ≤ 20) ∧
       (∀ t, a.parent_name = some t → t.length ≤ 100) ∧
       (∀ t, a.parent_phone = some t → t.length ≤ 20) ∧
       (∀ t, a.current_activity = some t → t.length ≤ 200))) ∧
    (∀ a : AlumniUpdate, AlumniUpdate.valid a = true ↔
      ((∀ t, a.nis = some t → t.length ≤ 20) ∧
       (∀ t, a.nisn = some t → t.length ≤ 20) ∧
       (∀ t, a.name = some t → t.length ≤ 100) ∧
       (∀ y, a.graduation_year = some y → 2000 ≤ y ∧ y ≤ 3000) ∧
       (∀ t, a.last_class = some t → t.length ≤ 10) ∧
       (∀ t, a.birth_place = some t → t.length ≤ 100) ∧
       (∀ t, a.address = some t → t.length ≤ 500) ∧
       (∀ t, a.phone = some t → t.length ≤ 20) ∧
       (∀ t, a.parent_name = some t → t.length ≤ 100) ∧
       (∀ t, a.parent_phone = some t → t.length ≤ 20) ∧
       (∀ t, a.current_activity = some t → t.length ≤ 200))) ∧
    (∀ s : SystemSettingsUpdate, SystemSettingsUpdate.valid s = true ↔
      ((∀ t, s.school_name = some t → t.length ≤ 200) ∧
       (∀ t, s.school_address = some t → t.length ≤ 500) ∧
       (∀ t, s.school_phone = some t → t.length ≤ 20) ∧
       (∀ t, s.school_email = some t → t.length ≤ 255) ∧
       (∀ t, s.current_academic_year = some t → t.length ≤ 9) ∧
       (∀ d, s.max_permit_days = some d → 1 ≤ d ∧ d ≤ 30))) := by
  refine ⟨?_, ?_, ?_, ?_, ?_, ?_, ?_, ?_, ?_, ?_, ?_, ?_, ?_, ?_, ?_, ?_,
    ?_, ?_, ?_, ?_, ?_⟩
  · intro u
    simp [User.lengthsValid, Bool.and_eq_true, and_assoc]
  · intro c
    simp [SchoolClass.valid, Bool.and_eq_true, optLenLe_iff, and_assoc]
  · intro s
    simp [Student.valid, Bool.and_eq_true, optLenLe_iff, and_assoc]
  · intro e
    simp [Employee.valid, Bool.and_eq_true, optLenLe_iff, and_assoc]
  · intro a
    simp [Alumni.valid, Bool.and_eq_true, optLenLe_iff, and_assoc]
  · intro p
    simp [StudentPermit.valid, Bool.and_eq_true, optLenLe_iff, and_assoc]
  · intro s
    simp [SystemSettings.valid, Bool.and_eq_true, optLenLe_iff, and_assoc]
  · intro l
    simp [AuditLog.valid, Bool.and_eq_true, optLenLe_iff, and_assoc]
  · intro u
    simp [UserCreate.valid, Bool.and_eq_true, and_assoc]
  · intro u
    simp [UserUpdate.valid, optLenLe_iff]
  · intro s
    simp [StudentCreate.valid, Bool.and_eq_true, optLenLe_iff, and_assoc]
  · intro s
    simp [StudentUpdate.valid, Bool.and_eq_true, optLenLe_iff, and_assoc]
  · intro p
    simp [PermitCreate.valid, Bool.and_eq_true, optLenLe_iff, and_assoc]
  · intro p
    simp [PermitUpdate.valid, Bool.and_eq_true, optLenLe_iff, and_assoc]
  · intro c
    simp [SchoolClassCreate.valid, Bool.and_eq_true, optLenLe_iff, and_assoc]
  · intro c
    simp [SchoolClassUpdate.valid, Bool.and_eq_true, optLenLe_iff, and_assoc]
  · intro e
    simp [EmployeeCreate.valid, Bool.and_eq_true, optLenLe_iff, and_assoc]
  · intro e
    simp [EmployeeUpdate.valid, Bool.and_eq_true, optLenLe_iff, and_assoc]
  · intro a
    simp [AlumniCreate.valid, Bool.and_eq_true, optLenLe_iff, and_assoc]
  · intro a
    cases hy : a.graduation_year <;>
      simp [AlumniUpdate.valid, hy, Bool.and_eq_true, optLenLe_iff, and_assoc]
  · intro s
    cases hd : s.max_permit_days <;>
      simp [SystemSettingsUpdate.valid, hd, Bool.and_eq_true, optLenLe_iff,
        and_assoc]

/-- C4: inserting a row that duplicates an existing row's value for a field
declared unique (`Student.nis`, `User.email`, `SchoolClass.name`) fails
with a uniqueness conflict — an error kind distinct from validation
errors — and the stored rows, the first row included, are unchanged. -/
theorem unique_field_duplicate_conflict :
    (∀ (db : List Student) (s t : Student), t ∈ db → t.nis = s.nis →
      insertStudent db s = (db, some (ModelError.uniqueness "nis"))) ∧
    (∀ (db : List User) (u t : User), t ∈ db → t.email = u.email →
      insertUser db u = (db, some (ModelError.uniqueness "email"))) ∧
    (∀ (db : List SchoolClass) (c t : SchoolClass), t ∈ db → t.name = c.name →
      insertSchoolClass db c = (db, some (ModelError.uniqueness "name"))) ∧
    (∀ f g, ModelError.uniqueness f ≠ ModelError.validation g) := by
  refine ⟨?_, ?_, ?_, by intro f g h; cases h⟩
  · intro db s t ht he
    have hany : db.any (fun r => decide (r.nis = s.nis)) = true :=
      List.any_eq_true.mpr ⟨t, ht, by simp [he]⟩
    simp [insertStudent, hany]
  · intro db u t ht he
    have hany : db.any (fun r => decide (r.email = u.email)) = true :=
      List.any_eq_true.mpr ⟨t, ht, by simp [he]⟩
    simp [insertUser, hany]
  · intro db c t ht he
    have hany : db.any (fun r => decide (r.name = c.name)) = true :=
      List.any_eq_true.mpr ⟨t, ht, by simp [he]⟩
    simp [insertSchoolClass, hany]

/-- C4 witness: duplicating the sample student's `nis`, the sample user's
`email` and the sample class's `name` each fails with a uniqueness
conflict, leaving the one stored row in place. -/
theorem unique_field_duplicate_conflict_witness :
    insertStudent [sampleStudent] sampleStudentDup =
      ([sampleStudent], some (ModelError.uniqueness "nis")) ∧
    insertUser [sampleUser] sampleUserDup =
      ([sampleUser], some (ModelError.uniqueness "email")) ∧
    insertSchoolClass [sampleSchoolClass] sampleSchoolClassDup =
      ([sampleSchoolClass], some (ModelError.uniqueness "name")) :=
  ⟨unique_field_duplicate_conflict.1 [sampleStudent] sampleStudentDup
      sampleStudent (List.mem_singleton.mpr rfl) rfl,
   unique_field_duplicate_conflict.2.1 [sampleUser] sampleUserDup
      sampleUser (List.mem_singleton.mpr rfl) rfl,
   unique_field_duplicate_conflict.2.2.1 [sampleSchoolClass]
      sampleSchoolClassDup sampleSchoolClass (List.mem_singleton.mpr rfl) rfl⟩

/-- C5: every entry of the public board comes from a permit in `approved`
status and is exactly its projection onto the restricted public field set;
the projection depends only on the six exposed attributes — permits
agreeing on them project identically, whatever their notes, approval
notes, actors, timestamps or status. -/
theorem public_board_approved_restricted :
    (∀ (sn cn : Nat → String) (permits : List StudentPermit)
        (i : PublicPermitInfo), i ∈ publicBoard sn cn permits →
      ∃ p, p ∈ permits ∧ p.status = PermitStatus.approved ∧
        i = toPublicInfo sn cn p) ∧
    (∀ (sn cn : Nat → String) (p q : StudentPermit),
      p.student_id = q.student_id → p.permit_type = q.permit_type →
      p.reason = q.reason → p.start_date = q.start_date →
      p.end_date = q.end_date →
      toPublicInfo sn cn p = toPublicInfo sn cn q) := by
  constructor
  · intro sn cn permits i hi
    simp only [publicBoard, List.mem_map, List.mem_filter,
      decide_eq_true_eq] at hi
    obtain ⟨p, ⟨hp, hs⟩, rfl⟩ := hi
    exact ⟨p, hp, hs, rfl⟩
  · intro sn cn p q h1 h2 h3 h4 h5
    simp [toPublicInfo, h1, h2, h3, h4, h5]

/-- C5 witness: with the sample approved permit as the only stored permit,
its board entry indeed arises from an approved permit via the projection. -/
theorem public_board_approved_restricted_witness :
    ∃ p, p ∈ [samplePermit] ∧ p.status = PermitStatus.approved ∧
      toPublicInfo (fun _ => "Budi") (fun _ => "7A") samplePermit =
        toPublicInfo (fun _ => "Budi") (fun _ => "7A") p :=
  public_board_approved_restricted.1 (fun _ => "Budi") (fun _ => "7A")
    [samplePermit]
    (toPublicInfo (fun _ => "Budi") (fun _ => "7A") samplePermit)
    (by simp [publicBoard, samplePermit])

/-- C6 counterexample: the claim that every update schema declares exactly
the create schema's field set fails at `User` — `email` is a `UserCreate`
field but not a `UserUpdate` field. -/
theorem user_update_drops_email :
    "email" ∈ userCreateFields.map Prod.fst ∧
    "email" ∉ userUpdateFields.map Prod.fst := by
  decide

/-- C6 (amended): every field of every update schema is optional, but the
update field set equals the create field set only for `Alumni`; the other
update schemas drop creation-only fields and/or add lifecycle fields. -/
theorem update_schemas_all_optional :
    userUpdateFields.all Prod.snd = true ∧
    studentUpdateFields.all Prod.snd = true ∧
    permitUpdateFields.all Prod.snd = true ∧
    schoolClassUpdateFields.all Prod.snd = true ∧
    employeeUpdateFields.all Prod.snd = true ∧
    alumniUpdateFields.all Prod.snd = true ∧
    systemSettingsUpdateFields.all Prod.snd = true ∧
    alumniUpdateFields.map Prod.fst = alumniCreateFields.map Prod.fst := by
  decide

/-- C7: validation enforces the declared numeric bounds — an accepted
alumni creation or update has `graduation_year` in `[2000, 3000]`, an
accepted settings row or settings update has `max_permit_days` in
`[1, 30]`, and out-of-range values are rejected. -/
theorem numeric_bounds_validation :
    (∀ a : AlumniCreate, AlumniCreate.valid a = true →
      2000 ≤ a.graduation_year ∧ a.graduation_year ≤ 3000) ∧
    (∀ a : AlumniCreate,
      (a.graduation_year < 2000 ∨ 3000 < a.graduation_year) →
      AlumniCreate.valid a = false) ∧
    (∀ (a : AlumniUpdate) (y : Int), AlumniUpdate.valid a = true →
      a.graduation_year = some y → 2000 ≤ y ∧ y ≤ 3000) ∧
    (∀ s : SystemSettings, SystemSettings.valid s = true →
      1 ≤ s.max_permit_days ∧ s.max_permit_days ≤ 30) ∧
    (∀ s : SystemSettings,
      (s.max_permit_days < 1 ∨ 30 < s.max_permit_days) →
      SystemSettings.valid s = false) ∧
    (∀ (s : SystemSettingsUpdate) (d : Int),
      SystemSettingsUpdate.valid s = true → s.max_permit_days = some d →
      1 ≤ d ∧ d ≤ 30) := by
  have hAC : ∀ a : AlumniCreate, AlumniCreate.valid a = true →
      2000 ≤ a.graduation_year ∧ a.graduation_year ≤ 3000 := by
    intro a h
    simp [AlumniCreate.valid, Bool.and_eq_true] at h
    omega
  have hS : ∀ s : SystemSettings, SystemSettings.valid s = true →
      1 ≤ s.max_permit_days ∧ s.max_permit_days ≤ 30 := by
    intro s h
    simp [SystemSettings.valid, Bool.and_eq_true] at h
    omega
  refine ⟨hAC, ?_, ?_, hS, ?_, ?_⟩
  · intro a hb
    cases hv : AlumniCreate.valid a
    · rfl
    · have := hAC a hv
      omega
  · intro a y h hy
    simp [AlumniUpdate.valid, Bool.and_eq_true, hy] at h
    omega
  · intro s hb
    cases hv : SystemSettings.valid s
    · rfl
    · have := hS s hv
      omega
  · intro s d h hd
    simp [SystemSettingsUpdate.valid, Bool.and_eq_true, hd] at h
    omega

/-- C7 witness: the sample alumni input with `graduation_year = 1999` and
the sample settings row with `max_permit_days = 0` are both rejected. -/
theorem numeric_bounds_validation_witness :
    AlumniCreate.valid sampleAlumniBad = false ∧
    SystemSettings.valid sampleSettingsBad = false :=
  ⟨numeric_bounds_validation.2.1 sampleAlumniBad (by decide),
   numeric_bounds_validation.2.2.2.2.1 sampleSettingsBad (by decide)⟩

/-- C8: after every summary recomputation the four status counts sum to
`total_students`; storing a recomputation twice with no intervening record
change leaves the summary table identical; and a date with zero active
students yields `attendance_percentage = 0` rather than a division fault. -/
theorem summary_recompute_invariants :
    (∀ (active : List Nat) (records : List AttendanceRecord) (d : Date),
      (recomputeSummary active records d).present_count +
        (recomputeSummary active records d).absent_count +
        (recomputeSummary active records d).late_count +
        (recomputeSummary active records d).excused_count =
        (recomputeSummary active records d).total_students) ∧
    (∀ (db : List AttendanceSummary) (active : List Nat)
        (records : List AttendanceRecord) (d : Date),
      updateSummaries (updateSummaries db active records d) active records d =
        updateSummaries db active records d) ∧
    (∀ (records : List AttendanceRecord) (d : Date),
      (recomputeSummary [] records d).attendance_percentage = 0) := by
  refine ⟨?_, ?_, ?_⟩
  · intro active records d
    simpa [recomputeSummary] using
      count_status_partition (active.map (statusFor records d))
  · intro db active records d
    have hdate : (fun s : AttendanceSummary => decide (s.summary_date ≠ d))
        (recomputeSummary active records d) = false := by
      simp [recomputeSummary_date]
    simp [updateSummaries, List.filter_append, hdate, recomputeSummary_date,
      filter_same (fun s : AttendanceSummary => decide (s.summary_date ≠ d))]
  · intro records d
    simp [recomputeSummary]

/-- C9: user creation rejects a password shorter than 6 characters or
longer than 100, and the persistent `User` record has a `password_hash`
field but no plaintext `password` field. -/
theorem password_bounds_and_hash_only :
    (∀ u : UserCreate, u.password.length < 6 → UserCreate.valid u = false) ∧
    (∀ u : UserCreate, 100 < u.password.length →
      UserCreate.valid u = false) ∧
    "password" ∉ userFields ∧ "password_hash" ∈ userFields := by
  refine ⟨?_, ?_, by decide, by decide⟩
  · intro u h
    rw [Bool.eq_false_iff]
    intro hv
    simp [UserCreate.valid, Bool.and_eq_true] at hv
    omega
  · intro u h
    rw [Bool.eq_false_iff]
    intro hv
    simp [UserCreate.valid, Bool.and_eq_true] at hv
    omega

/-- C9 witness: the sample input with the three-letter password "abc" is
rejected. -/
theorem password_bounds_and_hash_only_witness :
    UserCreate.valid sampleUserCreateShort = false :=
  password_bounds_and_hash_only.1 sampleUserCreateShort (by decide)

/-- C10: `Employee.nip` is declared unique though optional — inserting an
employee whose non-null `nip` duplicates a stored row's fails with a
uniqueness conflict and leaves the stored rows unchanged, while an
employee with no `nip` inserts without conflict. -/
theorem employee_nip_unique :
    (∀ (db : List Employee) (e t : Employee) (v : String), t ∈ db →
      t.nip = some v → e.nip = some v →
      insertEmployee db e = (db, some (ModelError.uniqueness "nip"))) ∧
    (∀ (db : List Employee) (e : Employee), e.nip = none →
      insertEmployee db e = (db ++ [e], none)) := by
  constructor
  · intro db e t v ht htv hev
    have hany : db.any (fun r => decide (r.nip = some v)) = true :=
      List.any_eq_true.mpr ⟨t, ht, by simp [htv]⟩
    simp [insertEmployee, hev, hany]
  · intro db e he
    simp [insertEmployee, he]

/-- C10 witness: duplicating the sample employee's `nip` fails with a
uniqueness conflict, while the `nip`-less employee inserts fine. -/
theorem employee_nip_unique_witness :
    insertEmployee [sampleEmployee] sampleEmployeeDup =
      ([sampleEmployee], some (ModelError.uniqueness "nip")) ∧
    insertEmployee [sampleEmployee] sampleEmployeeNoNip =
      ([sampleEmployee, sampleEmployeeNoNip], none) :=
  ⟨employee_nip_unique.1 [sampleEmployee] sampleEmployeeDup sampleEmployee
      "19800101" (List.mem_singleton.mpr rfl) rfl rfl,
   employee_nip_unique.2 [sampleEmployee] sampleEmployeeNoNip rfl⟩

end Siseroja
